import Mathlib

/-!
Verification of the html2pptx style-cascade and box-geometry resolver.

This file is a shallow embedding, in Lean 4, of the resolver implemented by
the `HTML2PPTX` class (the latest iteration of `lib/html2pptx.js`, the one
that defines `calculateAbsolutePosition` and the Tailwind utility table).
JavaScript numbers are modelled by `ℚ`; JavaScript strings by `String`;
`undefined`/missing values by `Option`; the style objects built with
`Object.assign` by write-sequences (`List (String × String)`) read with a
last-writer-wins lookup, which is observationally equivalent because the
code only ever reads single properties from them.

Sections:
  1. JavaScript string/number primitives (`split`, `trim`, `includes`,
     `parseFloat`, `Math.ceil`, `Math.round`)
  2. the style sheet model and `getComputedStyle` (the cascade resolver)
  3. the DOM-location model (an element together with its sibling lists and
     ancestor chain)
  4. `parsePixelValue`, `parseFontSize`, `calculateAbsolutePosition`,
     `calculateElementPosition`, `processTextElement` (geometry resolution
     and scaling)
  5. theorems settling the specification claims.
-/

/-! ## 1. JavaScript string and number primitives -/

/-- Numeric value of a list of decimal digit characters (most significant
first), as produced by `parseFloat`/`parseInt` on a digit run. -/
def jsDigits (cs : List Char) : Nat :=
  cs.foldl (fun a c => 10 * a + (c.toNat - 48)) 0

/-- `String.prototype.includes` on character lists: does `sub` occur as a
contiguous sublist of `cs`? -/
def containsSub (cs sub : List Char) : Bool :=
  match cs with
  | [] => sub.isEmpty
  | _ :: rest => sub.isPrefixOf cs || containsSub rest sub

/-- `String.prototype.includes`. -/
def jsIncludes (s sub : String) : Bool :=
  containsSub s.toList sub.toList

/-- Worker for `splitList`; the fuel is an upper bound on the input length,
so the zero-fuel arm is never reached on the initial call. -/
def splitListGo (sep : List Char) : Nat → List Char → List Char → List (List Char)
  | _, [], cur => [cur.reverse]
  | 0, cs, cur => [cur.reverse ++ cs]
  | Nat.succ fuel, c :: cs, cur =>
    if sep.isPrefixOf (c :: cs) then
      cur.reverse :: splitListGo sep fuel ((c :: cs).drop sep.length) []
    else
      splitListGo sep fuel cs (c :: cur)

/-- `String.prototype.split` with a non-empty separator, on character
lists. -/
def splitList (sep cs : List Char) : List (List Char) :=
  splitListGo sep cs.length cs []

/-- `String.prototype.split`. -/
def jsSplit (s sep : String) : List String :=
  (splitList sep.toList s.toList).map String.mk

/-- Drop leading whitespace. -/
def trimLeftL (cs : List Char) : List Char :=
  cs.dropWhile Char.isWhitespace

/-- Drop leading and trailing whitespace. -/
def trimL (cs : List Char) : List Char :=
  trimLeftL ((trimLeftL cs.reverse).reverse)

/-- `String.prototype.trim`. -/
def jsTrim (s : String) : String :=
  String.mk (trimL s.toList)

/-- JavaScript truthiness of a possibly-missing string: `undefined` and the
empty string are falsy, every other string is truthy. -/
def truthy : Option String → Bool
  | none => false
  | some s => !(s == "")

/-- The JavaScript idiom `v || d` on a possibly-missing string `v` with a
string default `d`. -/
def jsOr (v : Option String) (d : String) : String :=
  match v with
  | none => d
  | some s => if s == "" then d else s

/-- The digit structure recognised by `parseFloat`: after optional leading
whitespace and an optional sign, an integer digit run and (after a dot) a
fraction digit run, at least one of which must be non-empty.  Returns
`(negative, integer digits, fraction digits)`; `none` models `NaN`.
Exponent forms, which never occur in the CSS values this program reads, are
not modelled. -/
def parseFloatParts (cs : List Char) : Option (Bool × List Char × List Char) :=
  let cs1 := trimLeftL cs
  let sgn : Bool × List Char :=
    match cs1 with
    | '-' :: r => (true, r)
    | '+' :: r => (false, r)
    | _ => (false, cs1)
  let intd := sgn.2.takeWhile Char.isDigit
  let rest := sgn.2.drop intd.length
  let fracd :=
    match rest with
    | '.' :: r => r.takeWhile Char.isDigit
    | _ => []
  if intd = [] ∧ fracd = [] then none else some (sgn.1, intd, fracd)

/-- The rational value denoted by a `parseFloatParts` result. -/
def ratOfParts (neg : Bool) (intd fracd : List Char) : ℚ :=
  let v : ℚ := (jsDigits intd : ℚ) + (jsDigits fracd : ℚ) / (10 : ℚ) ^ fracd.length
  if neg then -v else v

/-- `parseFloat`; `none` models `NaN`. -/
def jsParseFloat (s : String) : Option ℚ :=
  (parseFloatParts s.toList).map (fun p => ratOfParts p.1 p.2.1 p.2.2)

/-- `Math.round` (round half toward positive infinity). -/
def jsRound (q : ℚ) : ℤ := ⌊q + 1/2⌋

/-- `Math.ceil`, written through `Int.floor` so that concrete values
evaluate. -/
def jsCeil (q : ℚ) : ℤ := -⌊-q⌋

/-! ## 2. Style sheet model and the cascade resolver -/

/-- A computed-style object: the sequence of property writes performed on it
by `Object.assign` and `parseInlineStyle`, in order. -/
abbrev CSS := List (String × String)

/-- The `this.styles` table: selector string to accumulated property map, in
key-insertion order (JavaScript objects preserve it, and the `nth-child`
scan iterates over it with `for ... in`). -/
abbrev Sheet := List (String × CSS)

/-- Property read from a computed-style object: the value of the last write
with the given key, as after a sequence of `Object.assign`s. -/
def jsGet : CSS → String → Option String
  | [], _ => none
  | p :: rest, k =>
    match jsGet rest k with
    | some v => some v
    | none => if p.1 = k then some p.2 else none

/-- `this.styles[sel]`. -/
def sheetGet : Sheet → String → Option CSS
  | [], _ => none
  | r :: rest, sel => if r.1 = sel then some r.2 else sheetGet rest sel

/-- `parseInlineStyle`: split the declaration string on `;`, each fragment
on `:`, trim, and keep the fragments whose property and value are both
non-empty (malformed fragments propagate nothing). -/
def parseInlineStyle (styleStr : String) : CSS :=
  (jsSplit styleStr ";").foldl
    (fun acc part =>
      match (jsSplit part ":").map jsTrim with
      | prop :: value :: _ =>
        if prop ≠ "" ∧ value ≠ "" then acc ++ [(prop, value)] else acc
      | _ => acc)
    []

/-- `getTailwindStyle`: the hard-coded utility-class table. -/
def getTailwindStyle (className : String) : Option CSS :=
  if className = "flex" then some [("display", "flex")]
  else if className = "flex-row" then some [("flex-direction", "row")]
  else if className = "flex-col" then some [("flex-direction", "column")]
  else if className = "items-center" then some [("align-items", "center")]
  else if className = "items-start" then some [("align-items", "flex-start")]
  else if className = "items-end" then some [("align-items", "flex-end")]
  else if className = "justify-center" then some [("justify-content", "center")]
  else if className = "justify-start" then some [("justify-content", "flex-start")]
  else if className = "justify-end" then some [("justify-content", "flex-end")]
  else if className = "justify-between" then some [("justify-content", "space-between")]
  else if className = "text-center" then some [("text-align", "center")]
  else if className = "text-left" then some [("text-align", "left")]
  else if className = "text-right" then some [("text-align", "right")]
  else if className = "gap-0" then some [("gap", "0")]
  else if className = "gap-1" then some [("gap", "0.25rem")]
  else if className = "gap-2" then some [("gap", "0.5rem")]
  else if className = "gap-4" then some [("gap", "1rem")]
  else if className = "gap-6" then some [("gap", "1.5rem")]
  else if className = "gap-8" then some [("gap", "2rem")]
  else if className = "p-0" then some [("padding", "0")]
  else if className = "p-4" then some [("padding", "1rem")]
  else if className = "p-8" then some [("padding", "2rem")]
  else if className = "p-16" then some [("padding", "4rem")]
  else none

/-- The separator of the structural pseudo-class form. -/
def nthSep : List Char := ":nth-child(".toList

/-- One candidate split of a selector at its `j`-th `:nth-child(`
occurrence, mirroring one backtracking state of the regular expression
match `(.+):nth-child\((\d+)\)`: the base must be non-empty and the
remainder must begin with a digit run followed by a closing parenthesis. -/
def parseNthChildAt (parts : List (List Char)) (j : Nat) : Option (String × Nat) :=
  let base := List.intercalate nthSep (parts.take j)
  let rest := List.intercalate nthSep (parts.drop j)
  let digs := rest.takeWhile Char.isDigit
  if base ≠ [] ∧ digs ≠ [] ∧ (rest.drop digs.length).take 1 = [')'] then
    some (String.mk base, jsDigits digs)
  else none

/-- Try candidate splits from the last `:nth-child(` occurrence leftward,
as the greedy `(.+)` does. -/
def parseNthChildGo (parts : List (List Char)) : Nat → Option (String × Nat)
  | 0 => none
  | Nat.succ j =>
    match parseNthChildAt parts (Nat.succ j) with
    | some r => some r
    | none => parseNthChildGo parts j

/-- The selector analysis performed by the `nth-child` scan in
`getComputedStyle`: the `includes(':nth-child')` guard together with the
match of `(.+):nth-child\((\d+)\)`, yielding the base selector and the
declared (1-based) child index. -/
def parseNthChild (s : String) : Option (String × Nat) :=
  let parts := splitList nthSep s.toList
  if parts.length ≤ 1 then none else parseNthChildGo parts (parts.length - 1)

/-- Base-selector match of a structural rule: a leading-dot base must occur
in the class list (without the dot), otherwise the base must equal the tag
name. -/
def baseMatches (base tagName : String) (classes : List String) : Bool :=
  if ("." : String).toList.isPrefixOf base.toList then
    classes.contains (String.mk (base.toList.drop 1))
  else base == tagName

/-- Whether one stored selector contributes to a node through the
structural (`nth-child`) scan: the selector must parse, the node's 0-based
index must equal the declared index minus one, and the base selector must
match. -/
def structuralApplies (tagName : String) (classes : List String) (index : Nat)
    (sel : String) : Bool :=
  match parseNthChild sel with
  | none => false
  | some (base, n) =>
    if (index : ℤ) = (n : ℤ) - 1 then baseMatches base tagName classes else false

/-- The class list of a node: its `class` attribute split on single
spaces. -/
def classListOf (classAttr : String) : List String := jsSplit classAttr " "

/-- The class-stage writes of `getComputedStyle`: for each non-empty class
name in order, the parsed `.class` rule followed by the Tailwind utility
entry. -/
def classContrib (sheet : Sheet) (classes : List String) : CSS :=
  classes.foldl
    (fun acc c =>
      if c = "" then acc
      else acc ++ ((sheetGet sheet ("." ++ c)).getD []) ++ ((getTailwindStyle c).getD []))
    []

/-- The structural-stage writes of `getComputedStyle`: every stored selector
is scanned in insertion order and the matching ones contribute their
properties. -/
def structuralContrib (sheet : Sheet) (tagName : String) (classes : List String)
    (index : Nat) : CSS :=
  sheet.foldl
    (fun acc r => if structuralApplies tagName classes index r.1 then acc ++ r.2 else acc)
    []

/-- `getComputedStyle`, as the ordered write sequence it performs on the
fresh computed-style object: tag rule, then class rules (with Tailwind),
then matching structural rules (only when the node has a parent, in which
case `childIndex` is its 0-based index among the parent's children), then
inline declarations.  Reading a property with `jsGet` yields the last
writer, exactly as after the `Object.assign` sequence. -/
def computeStyle (sheet : Sheet) (tagName classAttr : String)
    (styleAttr : Option String) (childIndex : Option Nat) : CSS :=
  (if tagName ≠ "" then (sheetGet sheet tagName).getD [] else [])
    ++ classContrib sheet (classListOf classAttr)
    ++ (match childIndex with
        | none => []
        | some i => structuralContrib sheet tagName (classListOf classAttr) i)
    ++ (match styleAttr with
        | none => []
        | some s => if s = "" then [] else parseInlineStyle s)

/-! ## 3. DOM location model

An element is presented to the resolver through the accessors it actually
uses: `prop('tagName')` (lower-cased here), `attr('class')`,
`attr('style')`, `text()` (the concatenated text of the whole subtree), and
the parent/children/sibling navigation.  A `Loc` is an element together
with everything that navigation can reach: its own data, the data of its
siblings (in document order, split around it), and recursively its parent's
location.  `Loc.root` models an element whose `parent()` is the empty
selection. -/

/-- The element data the resolver reads. -/
structure ElemData where
  tag : String
  classAttr : String
  styleAttr : Option String
  textAll : String
deriving DecidableEq

/-- An element in context: an orphan, or a child with its preceding and
following siblings and its parent's location. -/
inductive Loc where
  | root (e : ElemData)
  | child (e : ElemData) (before after : List ElemData) (parent : Loc)
deriving DecidableEq

/-- The element's own data. -/
def Loc.data : Loc → ElemData
  | .root e => e
  | .child e _ _ _ => e

/-- The parent location, if any. -/
def Loc.parentLoc : Loc → Option Loc
  | .root _ => none
  | .child _ _ _ p => some p

/-- `siblings.index($elem[0])`: the element's 0-based index among its
parent's children, when it has a parent. -/
def Loc.indexInParent : Loc → Option Nat
  | .root _ => none
  | .child _ before _ _ => some before.length

/-- `parent.children()` paired with each child's 0-based index; empty for
an orphan, as `parent().children()` is on an empty selection. -/
def Loc.siblingsIdx : Loc → List (Nat × ElemData)
  | .root _ => []
  | .child e before after _ => (before ++ e :: after).enum

/-- `getComputedStyle` on a located element. -/
def getComputedStyle (sheet : Sheet) (loc : Loc) : CSS :=
  computeStyle sheet loc.data.tag loc.data.classAttr loc.data.styleAttr loc.indexInParent

/-- The parent's computed style, or the empty object for an orphan
(`parent.length > 0 ? this.getComputedStyle($, parent[0]) : {}`). -/
def parentStyleOf (sheet : Sheet) (loc : Loc) : CSS :=
  match loc.parentLoc with
  | some p => getComputedStyle sheet p
  | none => []

/-! ## 4. Geometry resolution -/

/-- A `{x, y, w, h}` record. -/
structure Geometry where
  x : ℚ
  y : ℚ
  w : ℚ
  h : ℚ
deriving DecidableEq

/-- `parsePixelValue`: 0 for missing/falsy/non-numeric input, otherwise the
parsed number interpreted by the first unit substring found in the order
px, %, em, rem, pt, vh, vw, defaulting to pixels.  `hw`/`hh` are
`this.options.htmlWidth`/`htmlHeight`. -/
def parsePixelValue (hw hh : ℚ) : Option String → ℚ
  | none => 0
  | some s =>
    if s = "" then 0
    else
      match jsParseFloat s with
      | none => 0
      | some n =>
        if jsIncludes s "px" then n
        else if jsIncludes s "%" then n / 100 * hw
        else if jsIncludes s "em" then n * 16
        else if jsIncludes s "rem" then n * 16
        else if jsIncludes s "pt" then n * (1333/1000)
        else if jsIncludes s "vh" then n / 100 * hh
        else if jsIncludes s "vw" then n / 100 * hw
        else n

/-- `parseFontSize`: 18 for missing/falsy/non-numeric input, otherwise a
rounded point value (`px` values are scaled by 0.85, `em`/`rem` by 16×0.85,
`pt` and bare numbers taken as points). -/
def parseFontSize : Option String → ℚ
  | none => 18
  | some s =>
    if s = "" then 18
    else
      match jsParseFloat s with
      | none => 18
      | some n =>
        if jsIncludes s "px" then ((jsRound (n * (85/100))) : ℚ)
        else if jsIncludes s "em" then ((jsRound (n * 16 * (85/100))) : ℚ)
        else if jsIncludes s "rem" then ((jsRound (n * 16 * (85/100))) : ℚ)
        else if jsIncludes s "pt" then ((jsRound n) : ℚ)
        else ((jsRound n) : ℚ)

/-- The text-size height heuristic, as written identically at its three use
sites: `lineHeight × ceil(textLength / 50) + fontSize × 0.5`, with
`lineHeight` the declared `line-height` if present, else
`fontSize × 1.2`, and `fontSize` parsed from `font-size` defaulting to
`16px`. -/
def textHeuristicHeight (hw hh : ℚ) (style : CSS) (textAll : String) : ℚ :=
  let fontSize := parseFontSize (some (jsOr (jsGet style "font-size") "16px"))
  let lineHeight :=
    if truthy (jsGet style "line-height") then parsePixelValue hw hh (jsGet style "line-height")
    else fontSize * (12/10)
  let estimatedLines : ℚ := ((jsCeil (((jsTrim textAll).length : ℚ) / 50)) : ℤ)
  lineHeight * estimatedLines + fontSize * (1/2)

/-- The computed style of the `i`-th sibling: it has the same parent, so
its structural index is `i`. -/
def siblingStyle (sheet : Sheet) (i : Nat) (sib : ElemData) : CSS :=
  computeStyle sheet sib.tag sib.classAttr sib.styleAttr (some i)

/-- A sibling's height as taken by the sibling loop of
`calculateAbsolutePosition`: its declared `height`, else the text-size
heuristic on its own text and style. -/
def siblingLoopHeight (hw hh : ℚ) (sheet : Sheet) (i : Nat) (sib : ElemData) : ℚ :=
  let st := siblingStyle sheet i sib
  if truthy (jsGet st "height") then parsePixelValue hw hh (jsGet st "height")
  else textHeuristicHeight hw hh st sib.textAll

/-- One iteration of the sibling loop: the sibling's height, its
`margin-bottom`, the current element's `margin-top` once after the last
preceding sibling, and the flex-column gap. -/
def siblingLoopStep (hw hh : ℚ) (sheet : Sheet) (parentStyle selfStyle : CSS)
    (gap : ℚ) (index : Nat) (i : Nat) (sib : ElemData) : ℚ :=
  let st := siblingStyle sheet i sib
  siblingLoopHeight hw hh sheet i sib
    + (if truthy (jsGet st "margin-bottom") then parsePixelValue hw hh (jsGet st "margin-bottom") else 0)
    + (if i = index - 1 then
        (if truthy (jsGet selfStyle "margin-top")
         then parsePixelValue hw hh (jsGet selfStyle "margin-top") else 0)
       else 0)
    + (if jsGet parentStyle "display" = some "flex"
          ∧ jsGet parentStyle "flex-direction" = some "column" then gap else 0)

/-- The vertical offset accumulated from the preceding siblings. -/
def siblingOffset (hw hh : ℚ) (sheet : Sheet) (parentStyle selfStyle : CSS)
    (before : List ElemData) : ℚ :=
  let gap := parsePixelValue hw hh (some (jsOr (jsGet parentStyle "gap") "0"))
  (before.enum.map (fun p => siblingLoopStep hw hh sheet parentStyle selfStyle gap before.length p.1 p.2)).sum

/-- One sibling's contribution to the `totalContentHeight` sum of the
grandparent flex-centering block: declared height or heuristic, plus both
margins. -/
def contentHeightStep (hw hh : ℚ) (sheet : Sheet) (i : Nat) (sib : ElemData) : ℚ :=
  let st := siblingStyle sheet i sib
  (if truthy (jsGet st "height") then parsePixelValue hw hh (jsGet st "height")
   else textHeuristicHeight hw hh st sib.textAll)
    + (if truthy (jsGet st "margin-top") then parsePixelValue hw hh (jsGet st "margin-top") else 0)
    + (if truthy (jsGet st "margin-bottom") then parsePixelValue hw hh (jsGet st "margin-bottom") else 0)

/-- `totalContentHeight`: the sum over all of the parent's children. -/
def totalContentHeight (hw hh : ℚ) (sheet : Sheet) (sibs : List (Nat × ElemData)) : ℚ :=
  (sibs.map (fun p => contentHeightStep hw hh sheet p.1 p.2)).sum

/-- The height the parent recursion passes down:
`ppv(parentComputedStyle.height || parentComputedStyle['min-height'] || '0')`. -/
def parentHeightArg (hw hh : ℚ) (pcs : CSS) : ℚ :=
  parsePixelValue hw hh (some (jsOr (jsGet pcs "height") (jsOr (jsGet pcs "min-height") "0")))

/-- The width the parent recursion passes down:
`ppv(parentComputedStyle.width || htmlWidth.toString())`; printing the
number and re-parsing it is the identity, so the fallback is `hw`
directly. -/
def parentWidthArg (hw hh : ℚ) (pcs : CSS) : ℚ :=
  if truthy (jsGet pcs "width") then parsePixelValue hw hh (jsGet pcs "width") else hw


/-- The grandparent height used by the flex-centering block:
`ppv(gps.height || gps['min-height'] || htmlHeight.toString())` (printing
the number and re-parsing it is the identity). -/
def grandParentHeightArg (hw hh : ℚ) (gps : CSS) : ℚ :=
  if truthy (jsGet gps "height") then parsePixelValue hw hh (jsGet gps "height")
  else if truthy (jsGet gps "min-height") then parsePixelValue hw hh (jsGet gps "min-height")
  else hh

/-- The `text-align: center` adjustment of the horizontal offset:
`x − ppv(parentStyle.padding || '0') + (availableWidth − elemWidth) / 2`
with `availableWidth` the parent's width (default the canvas width) minus
twice its padding. -/
def centerAdjustX (hw hh : ℚ) (parentStyle : CSS) (elemWidth x : ℚ) : ℚ :=
  let parentWidth := parentWidthArg hw hh parentStyle
  let parentPadding := parsePixelValue hw hh (some (jsOr (jsGet parentStyle "padding") "0")) * 2
  let availableWidth := parentWidth - parentPadding
  x - parsePixelValue hw hh (some (jsOr (jsGet parentStyle "padding") "0"))
    + (availableWidth - elemWidth) / 2

/-- `calculateAbsolutePosition($, $elem, parentStyle, elemWidth,
elemHeight)`: the unscaled offset of the element in source-pixel space.
The blocks of the source run in order: the preceding-sibling sum (only
when the element has a parent), the parent padding (from the passed-in
parent style), the recursive parent offset (skipped for an orphan or when
the parent is `body`), the `text-align: center` adjustment, and the
grandparent flex-column centering adjustment.  The `elemHeight` argument
is never read by the source body. -/
def calculateAbsolutePosition (hw hh : ℚ) (sheet : Sheet) :
    Loc → CSS → ℚ → ℚ → ℚ × ℚ
  | Loc.root e, parentStyle, elemWidth, _ =>
    let pad :=
      if truthy (jsGet parentStyle "padding")
      then parsePixelValue hw hh (jsGet parentStyle "padding") else 0
    let currentStyle := computeStyle sheet e.tag e.classAttr e.styleAttr none
    let x3 :=
      if jsGet currentStyle "text-align" = some "center"
          ∨ jsGet parentStyle "text-align" = some "center"
      then centerAdjustX hw hh parentStyle elemWidth pad
      else pad
    (x3, pad)
  | Loc.child e before after par, parentStyle, elemWidth, _ =>
    let selfStyle := computeStyle sheet e.tag e.classAttr e.styleAttr (some before.length)
    let sibY :=
      if 0 < before.length
      then siblingOffset hw hh sheet parentStyle selfStyle before else 0
    let pad :=
      if truthy (jsGet parentStyle "padding")
      then parsePixelValue hw hh (jsGet parentStyle "padding") else 0
    let grandParentStyle :=
      match par.parentLoc with
      | some gp => getComputedStyle sheet gp
      | none => []
    let pr : ℚ × ℚ :=
      if par.data.tag ≠ "body" then
        let pcs := getComputedStyle sheet par
        calculateAbsolutePosition hw hh sheet par grandParentStyle
          (parentWidthArg hw hh pcs) (parentHeightArg hw hh pcs)
      else (0, 0)
    let x2 := pad + pr.1
    let y2 := sibY + pad + pr.2
    let x3 :=
      if jsGet selfStyle "text-align" = some "center"
          ∨ jsGet parentStyle "text-align" = some "center"
      then centerAdjustX hw hh parentStyle elemWidth x2
      else x2
    let y4 :=
      if par.data.tag ≠ "body" then
        if jsGet grandParentStyle "display" = some "flex" then
          if jsGet grandParentStyle "justify-content" = some "center"
              ∧ jsGet grandParentStyle "flex-direction" = some "column" then
            let total := totalContentHeight hw hh sheet ((before ++ e :: after).enum)
            let off := (grandParentHeightArg hw hh grandParentStyle - total) / 2
            if 0 < off then y2 + off else y2
          else y2
        else y2
      else y2
    (x3, y4)

/-- The flex-column height override of `calculateElementPosition`:
`availableHeight / flexCount` with `availableHeight` the parent's height
(its `height`, else `min-height`, else the literal `'720px'`) minus twice
its padding minus `gap × (siblingCount − 1)`, and `flexCount` the number
of siblings whose style has a truthy `flex` (the source's
`s.flex === '1' || s.flex === '1 1 0%' || s.flex` is exactly
truthiness). -/
def flexColumnHeight (hw hh : ℚ) (sheet : Sheet) (parentStyle : CSS)
    (sibsIdx : List (Nat × ElemData)) : ℚ :=
  let gap := parsePixelValue hw hh (some (jsOr (jsGet parentStyle "gap") "0"))
  let flexCount :=
    (sibsIdx.filter (fun p => truthy (jsGet (siblingStyle sheet p.1 p.2) "flex"))).length
  let parentHeight :=
    parsePixelValue hw hh
      (some (jsOr (jsGet parentStyle "height") (jsOr (jsGet parentStyle "min-height") "720px")))
  let parentPadding := parsePixelValue hw hh (some (jsOr (jsGet parentStyle "padding") "0")) * 2
  let totalGaps := gap * ((sibsIdx.length : ℚ) - 1)
  (parentHeight - parentPadding - totalGaps) / (flexCount : ℚ)

/-- The body of `calculateElementPosition` before its final scaling: the
width (own `width`, else parent width minus twice parent padding, else 80%
of the canvas width), the height (own `height`, else the text-size
heuristic, overridden by the flex-column division when the parent is a
column flex container and the element's `flex` is truthy), and the offset
from `calculateAbsolutePosition`. -/
def elementBox (hw hh : ℚ) (sheet : Sheet) (loc : Loc) : Geometry :=
  let style := getComputedStyle sheet loc
  let parentStyle := parentStyleOf sheet loc
  let w :=
    if truthy (jsGet style "width") then parsePixelValue hw hh (jsGet style "width")
    else if truthy (jsGet parentStyle "width") then
      parsePixelValue hw hh (jsGet parentStyle "width")
        - parsePixelValue hw hh (some (jsOr (jsGet parentStyle "padding") "0")) * 2
    else hw * (8/10)
  let h0 :=
    if truthy (jsGet style "height") then parsePixelValue hw hh (jsGet style "height")
    else textHeuristicHeight hw hh style loc.data.textAll
  let pos := calculateAbsolutePosition hw hh sheet loc parentStyle w h0
  let h :=
    if jsGet parentStyle "display" = some "flex"
        ∧ jsGet parentStyle "flex-direction" = some "column"
        ∧ truthy (jsGet style "flex")
    then flexColumnHeight hw hh sheet parentStyle loc.siblingsIdx
    else h0
  ⟨pos.1, pos.2, w, h⟩

/-- The converter's option record: slide size in output units, canvas size
in source pixels (defaults 10 × 5.625 and 1280 × 720). -/
structure Config where
  slideWidth : ℚ
  slideHeight : ℚ
  htmlWidth : ℚ
  htmlHeight : ℚ

/-- `this.scaleX = slideWidth / htmlWidth`. -/
def Config.scaleX (c : Config) : ℚ := c.slideWidth / c.htmlWidth

/-- `this.scaleY = slideHeight / htmlHeight`. -/
def Config.scaleY (c : Config) : ℚ := c.slideHeight / c.htmlHeight

/-- The coordinate scaler: the final
`{x: x*scaleX, y: y*scaleY, w: w*scaleX, h: h*scaleY}` step. -/
def scaleGeometry (sx sy : ℚ) (g : Geometry) : Geometry :=
  ⟨g.x * sx, g.y * sy, g.w * sx, g.h * sy⟩

/-- `calculateElementPosition`: the unscaled resolution followed by the
single scaling step of its return statement. -/
def calculateElementPosition (cfg : Config) (sheet : Sheet) (loc : Loc) : Geometry :=
  scaleGeometry cfg.scaleX cfg.scaleY (elementBox cfg.htmlWidth cfg.htmlHeight sheet loc)

/-- `processTextElement` restricted to its geometry effect: skip the node
when its trimmed text is empty, otherwise hand the computed geometry to
`slide.addText` (the position object returned by
`calculateElementPosition` is always truthy, so its `!position` guard
never fires); `some` means a box is emitted. -/
def processTextElement (cfg : Config) (sheet : Sheet) (loc : Loc) : Option Geometry :=
  if jsTrim loc.data.textAll = "" then none
  else some (calculateElementPosition cfg sheet loc)

/-- `getComputedStyle` with the `this.styles` table threaded as state, as a
JavaScript method call: the body contains no assignment to the table, so
the post-state is the pre-state. -/
def getComputedStyleST (sheet : Sheet) (loc : Loc) : CSS × Sheet :=
  (getComputedStyle sheet loc, sheet)

/-- `calculateElementPosition` with the `this.styles` table threaded as
state; its body (and everything it calls) only reads the table. -/
def calculateElementPositionST (cfg : Config) (sheet : Sheet) (loc : Loc) :
    Geometry × Sheet :=
  (calculateElementPosition cfg sheet loc, sheet)

/-! ## 5. Claims -/

/-- Reading a concatenated write sequence: a later block shadows an
earlier one. -/
theorem jsGet_append (a b : CSS) (k : String) :
    jsGet (a ++ b) k = if (jsGet b k).isSome then jsGet b k else jsGet a k := by
  induction a with
  | nil =>
    simp only [List.nil_append, jsGet]
    cases h : jsGet b k <;> simp [h]
  | cons p a ih =>
    simp only [List.cons_append, jsGet, List.append_eq]
    rw [ih]
    cases h : jsGet b k <;> simp [h]

/-- C1: for every node and every CSS property declared by a matching
tag rule, by a matching class rule, and in the node's inline style string,
the ComputedStyle produced by the cascade resolver maps that property to
the inline value: the merge runs tag rule, class rules in class-list
order, structural rules, then inline declarations, with last writer
wins. -/
theorem cascade_inline_wins (sheet : Sheet) (tagName classAttr inl : String)
    (childIndex : Option Nat) (k vt vc vi c : String)
    (htag : jsGet ((sheetGet sheet tagName).getD []) k = some vt)
    (hc : c ∈ classListOf classAttr) (hcne : c ≠ "")
    (hcls : jsGet ((sheetGet sheet ("." ++ c)).getD []) k = some vc)
    (hinl : jsGet (parseInlineStyle inl) k = some vi) :
    jsGet (computeStyle sheet tagName classAttr (some inl) childIndex) k = some vi := by
  have hne : inl ≠ "" := by
    intro h
    rw [h, show parseInlineStyle "" = [] from by decide] at hinl
    simp [jsGet] at hinl
  simp only [computeStyle, if_neg hne]
  rw [jsGet_append, jsGet_append, jsGet_append, hinl]
  simp

/-- C1 witness: the specification's example — tag rule `p {color: red}`,
class rule `.x {color: blue}`, inline `color: green` resolve to green. -/
theorem cascade_inline_wins_witness :
    jsGet (computeStyle [("p", [("color", "red")]), (".x", [("color", "blue")])]
      "p" "x" (some "color: green") none) "color" = some "green" :=
  cascade_inline_wins [("p", [("color", "red")]), (".x", [("color", "blue")])]
    "p" "x" "color: green" none "color" "red" "blue" "green" "x"
    (by decide) (by decide) (by decide) (by decide) (by decide)

/-- The sheet of the structural-match exactness example. -/
def boxSheet : Sheet := [(".box:nth-child(3)", [("border-color", "red")])]

/-- C3: a structural rule `base:nth-child(n)` contributes its properties
to a node's ComputedStyle iff the base matches the node (class-list
membership for a dotted base, tag equality otherwise) and the node's
0-based index among its parent's children equals `n − 1`; in particular
`.box:nth-child(3)` reaches only a `box`-classed node at index 2. -/
theorem nth_child_structural_exactness :
    (∀ (tagName : String) (classes : List String) (index : Nat) (sel base : String) (n : Nat),
       parseNthChild sel = some (base, n) →
       (structuralApplies tagName classes index sel = true ↔
         ((if ("." : String).toList.isPrefixOf base.toList
           then String.mk (base.toList.drop 1) ∈ classes
           else base = tagName)
          ∧ (index : ℤ) = (n : ℤ) - 1)))
    ∧ jsGet (computeStyle boxSheet "div" "box" none (some 2)) "border-color" = some "red"
    ∧ jsGet (computeStyle boxSheet "div" "box" none (some 1)) "border-color" = none
    ∧ jsGet (computeStyle boxSheet "div" "other" none (some 2)) "border-color" = none
    ∧ jsGet (computeStyle boxSheet "div" "" none (some 2)) "border-color" = none := by
  refine ⟨?_, by decide, by decide, by decide, by decide⟩
  intro tagName classes index sel base n hparse
  simp only [structuralApplies, hparse, baseMatches]
  by_cases hidx : (index : ℤ) = (n : ℤ) - 1
  · by_cases hpre : ("." : String).toList.isPrefixOf base.toList = true
    · simp [hidx, hpre, List.elem_iff]
    · simp [hidx, hpre]
  · simp [hidx]

/-- C3 witness: the general conjunct applied at `.box:nth-child(3)` on a
`box`-classed node of index 2. -/
theorem nth_child_structural_exactness_witness :
    structuralApplies "div" ["box"] 2 ".box:nth-child(3)" = true ↔
      ((if ("." : String).toList.isPrefixOf (".box" : String).toList
        then String.mk ((".box" : String).toList.drop 1) ∈ ["box"]
        else (".box" : String) = "div")
       ∧ ((2 : Nat) : ℤ) = ((3 : Nat) : ℤ) - 1) :=
  nth_child_structural_exactness.1 "div" ["box"] 2 ".box:nth-child(3)" ".box" 3 (by decide)

/-- C4: the coordinate scaler is the pure map
`{x·sx, y·sy, w·sx, h·sy}` with `sx = slideWidth/htmlWidth` and
`sy = slideHeight/htmlHeight`; `calculateElementPosition` factors as the
unscaled resolution (`elementBox`, which receives only the source canvas
size, so no scale factor enters the recursion) followed by exactly one
application of the scaler; and the canonical 1280×720 to 10×5.625 canvas
sends `{640, 360, 100, 50}` to `{5, 2.8125, 0.78125, 0.390625}` with both
scale factors equal to 0.0078125. -/
theorem scaling_applied_once_roundtrip :
    (∀ (cfg : Config) (sheet : Sheet) (loc : Loc),
       calculateElementPosition cfg sheet loc
         = scaleGeometry cfg.scaleX cfg.scaleY (elementBox cfg.htmlWidth cfg.htmlHeight sheet loc))
    ∧ ((10 : ℚ) / 1280 = 0.0078125 ∧ (5.625 : ℚ) / 720 = 0.0078125)
    ∧ scaleGeometry ((10 : ℚ) / 1280) ((5.625 : ℚ) / 720) ⟨640, 360, 100, 50⟩
        = ⟨5, 2.8125, 0.78125, 0.390625⟩ := by
  refine ⟨fun _ _ _ => rfl, by norm_num, ?_⟩
  simp only [scaleGeometry, Geometry.mk.injEq]
  norm_num

/-- C8: style and geometry resolution are pure and idempotent: with the
stylesheet table threaded as state, resolving a node leaves the table
unchanged, and resolving the same node again on the post-state returns
the identical ComputedStyle and the identical geometry. -/
theorem resolution_pure_and_idempotent (cfg : Config) (sheet : Sheet) (loc : Loc) :
    (getComputedStyleST sheet loc).2 = sheet
    ∧ (calculateElementPositionST cfg sheet loc).2 = sheet
    ∧ (getComputedStyleST (getComputedStyleST sheet loc).2 loc).1
        = (getComputedStyleST sheet loc).1
    ∧ (calculateElementPositionST cfg (calculateElementPositionST cfg sheet loc).2 loc).1
        = (calculateElementPositionST cfg sheet loc).1 :=
  ⟨rfl, rfl, rfl, rfl⟩

/-- The column-flex parent of the specification's flex-division example:
`display:flex; flex-direction:column; height:400px; gap:20px`, zero
padding. -/
def flexParentElem : ElemData :=
  ⟨"div", "", some "display:flex;flex-direction:column;height:400px;gap:20px",
    "Box 1Box 2Box 3Box 4"⟩

/-- A flex child declaring the `flex` shorthand. -/
def flexChildElem (t : String) : ElemData := ⟨"div", "", some "flex: 1", t⟩

/-- The second (index-1) of the four flex children. -/
def flexLoc1 : Loc :=
  Loc.child (flexChildElem "Box 2") [flexChildElem "Box 1"]
    [flexChildElem "Box 3", flexChildElem "Box 4"] (Loc.root flexParentElem)

/-- C2: at the specification's concrete instance (four `flex: 1` children,
column-flex parent of height 400px, gap 20px, zero padding) the resolver
does give each child height `(400 − 60) / 4 = 85`, but the second child's
unscaled vertical offset is `43.8` — the sibling loop measures the
preceding sibling with the text heuristic (`16.8 × 1 + 7 = 23.8`) plus the
gap — not the claimed `85 + 20 = 105`. -/
theorem flex_column_offsets_diverge :
    elementBox 1280 720 [] flexLoc1 = ⟨0, 219/5, 1024, 85⟩ ∧ (219/5 : ℚ) ≠ 105 := by
  constructor
  · have hself : getComputedStyle [] flexLoc1 = [("flex", "1")] := by decide
    have hpar : parentStyleOf [] flexLoc1
        = [("display", "flex"), ("flex-direction", "column"), ("height", "400px"),
           ("gap", "20px")] := by decide
    simp only [elementBox, hself, hpar]
    norm_num +decide [parentStyleOf, getComputedStyle, computeStyle, flexLoc1, flexChildElem,
      flexParentElem, Loc.data, Loc.parentLoc, Loc.indexInParent, Loc.siblingsIdx,
      calculateAbsolutePosition, siblingOffset, siblingLoopStep, siblingLoopHeight,
      siblingStyle, textHeuristicHeight, totalContentHeight, contentHeightStep,
      flexColumnHeight, parentWidthArg, parentHeightArg, grandParentHeightArg, centerAdjustX,
      parsePixelValue, parseFontSize, jsParseFloat, parseFloatParts, ratOfParts,
      show jsDigits [Char.ofNat 49, Char.ofNat 54] = 16 from by decide,
      show jsDigits [Char.ofNat 52, Char.ofNat 48, Char.ofNat 48] = 400 from by decide,
      show jsDigits [Char.ofNat 50, Char.ofNat 48] = 20 from by decide,
      show jsDigits [Char.ofNat 49] = 1 from by decide,
      show jsDigits [Char.ofNat 48] = 0 from by decide,
      show jsDigits [] = 0 from rfl,
      jsRound, jsCeil, jsIncludes, containsSub, jsOr, truthy, jsGet, jsTrim, trimL, trimLeftL,
      classContrib, structuralContrib, classListOf, sheetGet, parseInlineStyle, jsSplit,
      splitList, splitListGo, getTailwindStyle, structuralApplies, parseNthChild, List.enum,
      Geometry.mk.injEq]
  · norm_num

/-- The `body` parent of the absolute-positioning example. -/
def bodyParentElem : ElemData := ⟨"body", "", none, "SibAbs"⟩

/-- A normal-flow sibling preceding the absolutely positioned node. -/
def beforeAbsElem : ElemData := ⟨"div", "", some "height:100px", "Sib"⟩

/-- A node declaring `position:absolute` with explicit box offsets. -/
def absoluteElem : ElemData :=
  ⟨"div", "", some "position:absolute;left:100px;top:50px;width:200px;height:40px", "Abs"⟩

/-- The absolutely positioned node, second child of `body`. -/
def absoluteLoc : Loc := Loc.child absoluteElem [beforeAbsElem] [] (Loc.root bodyParentElem)

/-- C5: the resolver never consults the `position` property — a node
declaring `position:absolute; left:100px; top:50px; width:200px;
height:40px` behind a 100px-high sibling resolves to
`{x: 0, y: 100, w: 200, h: 40}` (sibling-stacked flow position), not the
claimed `{x: left, y: top, w, h} = {100, 50, 200, 40}`. -/
theorem absolute_position_ignored :
    elementBox 1280 720 [] absoluteLoc = ⟨0, 100, 200, 40⟩
    ∧ (Geometry.mk 0 100 200 40 ≠ Geometry.mk 100 50 200 40) := by
  constructor
  · have hself : getComputedStyle [] absoluteLoc
        = [("position", "absolute"), ("left", "100px"), ("top", "50px"),
           ("width", "200px"), ("height", "40px")] := by decide
    have hpar : parentStyleOf [] absoluteLoc = [] := by decide
    simp only [elementBox, hself, hpar]
    norm_num +decide [parentStyleOf, getComputedStyle, computeStyle, absoluteLoc, absoluteElem,
      beforeAbsElem, bodyParentElem, Loc.data, Loc.parentLoc, Loc.indexInParent,
      Loc.siblingsIdx, calculateAbsolutePosition, siblingOffset, siblingLoopStep,
      siblingLoopHeight, siblingStyle, textHeuristicHeight, totalContentHeight,
      contentHeightStep, flexColumnHeight, parentWidthArg, parentHeightArg,
      grandParentHeightArg, centerAdjustX, parsePixelValue, parseFontSize, jsParseFloat,
      parseFloatParts, ratOfParts,
      show jsDigits [Char.ofNat 49, Char.ofNat 48, Char.ofNat 48] = 100 from by decide,
      show jsDigits [Char.ofNat 50, Char.ofNat 48, Char.ofNat 48] = 200 from by decide,
      show jsDigits [Char.ofNat 52, Char.ofNat 48] = 40 from by decide,
      show jsDigits [Char.ofNat 53, Char.ofNat 48] = 50 from by decide,
      show jsDigits [Char.ofNat 49, Char.ofNat 54] = 16 from by decide,
      show jsDigits [Char.ofNat 48] = 0 from by decide,
      show jsDigits [] = 0 from rfl,
      jsRound, jsCeil, jsIncludes, containsSub, jsOr, truthy, jsGet, jsTrim, trimL, trimLeftL,
      classContrib, structuralContrib, classListOf, sheetGet, parseInlineStyle, jsSplit,
      splitList, splitListGo, getTailwindStyle, structuralApplies, parseNthChild, List.enum,
      Geometry.mk.injEq]
  · simp only [ne_eq, Geometry.mk.injEq]
    norm_num

/-- C6: for a node that declares no `height` and is not a flex-column
item (so the flex override does not fire), the unscaled resolved height
is `lineHeight × ceil(textLength / 50) + fontSize × 0.5`, with
`lineHeight` the declared `line-height` when present and `fontSize × 1.2`
otherwise, and `textLength` the length of the node's trimmed text. -/
theorem normal_flow_text_height (hw hh : ℚ) (sheet : Sheet) (loc : Loc)
    (hH : truthy (jsGet (getComputedStyle sheet loc) "height") = false)
    (hNF : ¬(jsGet (parentStyleOf sheet loc) "display" = some "flex"
             ∧ jsGet (parentStyleOf sheet loc) "flex-direction" = some "column"
             ∧ truthy (jsGet (getComputedStyle sheet loc) "flex") = true)) :
    (elementBox hw hh sheet loc).h =
      (if truthy (jsGet (getComputedStyle sheet loc) "line-height") = true
       then parsePixelValue hw hh (jsGet (getComputedStyle sheet loc) "line-height")
       else parseFontSize (some (jsOr (jsGet (getComputedStyle sheet loc) "font-size") "16px"))
              * (12/10))
      * ((jsCeil (((jsTrim loc.data.textAll).length : ℚ) / 50) : ℤ) : ℚ)
      + parseFontSize (some (jsOr (jsGet (getComputedStyle sheet loc) "font-size") "16px"))
          * (1/2) := by
  simp only [elementBox]
  rw [if_neg hNF, if_neg (by simp [hH])]
  simp only [textHeuristicHeight]

/-- A plain-flow text node with no declared style. -/
def plainTextLoc : Loc :=
  Loc.child ⟨"p", "", none, "hello world"⟩ [] [] (Loc.root ⟨"body", "", none, "hello world"⟩)

/-- C6 witness: the heuristic-height equation applied at the concrete
plain node. -/
theorem normal_flow_text_height_witness :
    (elementBox 1280 720 [] plainTextLoc).h =
      (if truthy (jsGet (getComputedStyle [] plainTextLoc) "line-height") = true
       then parsePixelValue 1280 720 (jsGet (getComputedStyle [] plainTextLoc) "line-height")
       else parseFontSize (some (jsOr (jsGet (getComputedStyle [] plainTextLoc) "font-size") "16px"))
              * (12/10))
      * ((jsCeil (((jsTrim plainTextLoc.data.textAll).length : ℚ) / 50) : ℤ) : ℚ)
      + parseFontSize (some (jsOr (jsGet (getComputedStyle [] plainTextLoc) "font-size") "16px"))
          * (1/2) :=
  normal_flow_text_height 1280 720 [] plainTextLoc (by decide) (by decide)

/-- C9: an orphan node (empty `parent()` selection) gets base offset
`(0, 0)` — no sibling term, no padding term, no ancestor term — and its
width falls back to 80% of the canonical canvas width, provided it
declares no width of its own and triggers no centering. -/
theorem orphan_node_defaults (hw hh : ℚ) (sheet : Sheet) (e : ElemData)
    (hW : truthy (jsGet (getComputedStyle sheet (Loc.root e)) "width") = false)
    (hTA : jsGet (getComputedStyle sheet (Loc.root e)) "text-align" ≠ some "center") :
    (elementBox hw hh sheet (Loc.root e)).x = 0
    ∧ (elementBox hw hh sheet (Loc.root e)).y = 0
    ∧ (elementBox hw hh sheet (Loc.root e)).w = hw * (8/10) := by
  have hTA' : jsGet (computeStyle sheet e.tag e.classAttr e.styleAttr none) "text-align"
      ≠ some "center" := by
    simpa [getComputedStyle, Loc.data, Loc.indexInParent] using hTA
  have hW' : truthy (jsGet (computeStyle sheet e.tag e.classAttr e.styleAttr none) "width")
      = false := by
    simpa [getComputedStyle, Loc.data, Loc.indexInParent] using hW
  simp only [elementBox, parentStyleOf, Loc.parentLoc, calculateAbsolutePosition,
    getComputedStyle, Loc.data, Loc.indexInParent, jsGet]
  simp [hW', hTA', show truthy none = false from rfl]

/-- An orphan element with no stylesheet context. -/
def orphanElem : ElemData := ⟨"div", "", none, "hello"⟩

/-- C9 witness: the orphan defaults at a concrete orphan node on the
canonical canvas. -/
theorem orphan_node_defaults_witness :
    (elementBox 1280 720 [] (Loc.root orphanElem)).x = 0
    ∧ (elementBox 1280 720 [] (Loc.root orphanElem)).y = 0
    ∧ (elementBox 1280 720 [] (Loc.root orphanElem)).w = 1280 * (8/10) :=
  orphan_node_defaults 1280 720 [] orphanElem (by decide) (by decide)

/-- The default converter configuration: 10 × 5.625 inch slide,
1280 × 720 pixel canvas. -/
def defaultConfig : Config := ⟨10, 5.625, 1280, 720⟩

/-- A text-bearing node declaring `width: 0px`, only child of `body`. -/
def zeroWidthLoc : Loc :=
  Loc.child ⟨"div", "", some "width:0px", "Hello"⟩ [] [] (Loc.root ⟨"body", "", none, "Hello"⟩)

/-- C7 counterexample: a text-bearing node whose width resolves to zero is
still handed to the output writer — `processTextElement` returns a
geometry (with `w = 0`) rather than skipping the node, so the zero-area
box does appear in the final output set. -/
theorem zero_width_still_emitted :
    processTextElement defaultConfig [] zeroWidthLoc = some ⟨0, 0, 0, 119/640⟩ := by
  have hself : getComputedStyle [] zeroWidthLoc = [("width", "0px")] := by decide
  have hpar : parentStyleOf [] zeroWidthLoc = [] := by decide
  have htext : jsTrim (Loc.data zeroWidthLoc).textAll = "Hello" := by decide
  simp only [processTextElement, htext, calculateElementPosition, scaleGeometry,
    Config.scaleX, Config.scaleY, defaultConfig, elementBox, hself, hpar]
  norm_num +decide [parentStyleOf, getComputedStyle, computeStyle, zeroWidthLoc,
    Loc.data, Loc.parentLoc, Loc.indexInParent, Loc.siblingsIdx,
    calculateAbsolutePosition, siblingOffset, siblingLoopStep, siblingLoopHeight,
    siblingStyle, textHeuristicHeight, totalContentHeight, contentHeightStep,
    flexColumnHeight, parentWidthArg, parentHeightArg, grandParentHeightArg, centerAdjustX,
    parsePixelValue, parseFontSize, jsParseFloat, parseFloatParts, ratOfParts,
    show jsDigits [Char.ofNat 49, Char.ofNat 54] = 16 from by decide,
    show jsDigits [Char.ofNat 48] = 0 from by decide,
    show jsDigits [] = 0 from rfl,
    jsRound, jsCeil, jsIncludes, containsSub, jsOr, truthy, jsGet, jsTrim, trimL, trimLeftL,
    classContrib, structuralContrib, classListOf, sheetGet, parseInlineStyle, jsSplit,
    splitList, splitListGo, getTailwindStyle, structuralApplies, parseNthChild, List.enum,
    Geometry.mk.injEq]

/-- C7 as amended: a node whose resolved width is zero still yields a
zero-width geometry and, when it bears text, is emitted (the driver
neither skips it nor throws); no clamping or null geometry exists. -/
theorem zero_width_geometry_flows_through (cfg : Config) (sheet : Sheet) (loc : Loc)
    (htext : jsTrim loc.data.textAll ≠ "")
    (hwt : truthy (jsGet (getComputedStyle sheet loc) "width") = true)
    (hw0 : parsePixelValue cfg.htmlWidth cfg.htmlHeight
        (jsGet (getComputedStyle sheet loc) "width") = 0) :
    processTextElement cfg sheet loc = some (calculateElementPosition cfg sheet loc)
    ∧ (calculateElementPosition cfg sheet loc).w = 0 := by
  refine ⟨by simp [processTextElement, htext], ?_⟩
  simp only [calculateElementPosition, scaleGeometry, elementBox]
  simp [hwt, hw0]

/-- C7 witness: the amended statement at the concrete zero-width node. -/
theorem zero_width_geometry_flows_through_witness :
    processTextElement defaultConfig [] zeroWidthLoc
        = some (calculateElementPosition defaultConfig [] zeroWidthLoc)
    ∧ (calculateElementPosition defaultConfig [] zeroWidthLoc).w = 0 :=
  zero_width_geometry_flows_through defaultConfig [] zeroWidthLoc (by decide) (by decide)
    (by
      have h : jsGet (getComputedStyle [] zeroWidthLoc) "width" = some "0px" := by decide
      rw [h]
      norm_num +decide [parsePixelValue, jsParseFloat, parseFloatParts, ratOfParts,
        jsIncludes, containsSub, trimLeftL,
        show jsDigits [Char.ofNat 48] = 0 from by decide,
        show jsDigits [] = 0 from rfl])

/-- A match of `sub` inside `b` survives prepending `a`. -/
theorem containsSub_append_right (a b sub : List Char) (h : containsSub b sub = true) :
    containsSub (a ++ b) sub = true := by
  induction a with
  | nil => simpa using h
  | cons c a ih =>
    simp only [List.cons_append, containsSub, List.append_eq]
    rw [ih]
    simp

/-- No match of `h0 :: t` can start inside a block that avoids `h0`, so
the search passes over it. -/
theorem containsSub_append_head_ne (a b : List Char) (h0 : Char) (t : List Char)
    (hne : ∀ c ∈ a, c ≠ h0) :
    containsSub (a ++ b) (h0 :: t) = containsSub b (h0 :: t) := by
  induction a with
  | nil => rfl
  | cons c a ih =>
    have hc : ¬(h0 = c) := fun h => (hne c (by simp)) h.symm
    simp only [List.cons_append, containsSub, List.isPrefixOf, List.append_eq]
    rw [ih (fun x hx => hne x (by simp [hx]))]
    simp [hc]

/-- A list avoiding `h0` contains no match of `h0 :: t`. -/
theorem containsSub_of_forall_ne (a : List Char) (h0 : Char) (t : List Char)
    (hne : ∀ c ∈ a, c ≠ h0) : containsSub a (h0 :: t) = false := by
  have h := containsSub_append_head_ne a [] h0 t hne
  simpa using h

/-- A digit character's code point lies in [48, 57]. -/
theorem isDigit_toNat_bounds (c : Char) (h : c.isDigit = true) :
    48 ≤ c.toNat ∧ c.toNat ≤ 57 := by
  unfold Char.isDigit at h
  simp at h
  exact h

/-- A digit character differs from any character with a code point outside
[48, 57]. -/
theorem isDigit_ne (c d : Char) (hc : c.isDigit = true)
    (hd : d.toNat < 48 ∨ 57 < d.toNat) : c ≠ d := by
  have hb := isDigit_toNat_bounds c hc
  intro he
  rw [he] at hb
  rcases hd with h | h
  · omega
  · omega

/-- A string built from a non-empty character list is non-empty. -/
theorem mk_ne_empty (ds : List Char) (hds : ds ≠ []) : String.mk ds ≠ "" :=
  fun h => hds (congrArg String.data h)

/-- C10: `parsePixelValue` is total — it is a function into `ℚ` — and its
value is as the unit dictates: missing, empty, or non-numeric input gives
0; for a digit run `ds` parsed by `parseFloat` to `n`, a `px` suffix
leaves `n` as is, `%` gives `n/100 × htmlWidth`, `em` and `rem` multiply
by 16, `pt` by 1.333, `vh` and `vw` give `n/100` of the canvas height and
width, and a bare number is taken as pixels. -/
theorem parsePixelValue_total_unit_dispatch (hw hh : ℚ) :
    parsePixelValue hw hh none = 0
    ∧ parsePixelValue hw hh (some "") = 0
    ∧ (∀ s : String, jsParseFloat s = none → parsePixelValue hw hh (some s) = 0)
    ∧ (∀ (ds : List Char) (n : ℚ), ds ≠ [] → (∀ c ∈ ds, Char.isDigit c = true) →
        (jsParseFloat (String.mk (ds ++ ['p', 'x'])) = some n →
           parsePixelValue hw hh (some (String.mk (ds ++ ['p', 'x']))) = n)
        ∧ (jsParseFloat (String.mk (ds ++ ['%'])) = some n →
           parsePixelValue hw hh (some (String.mk (ds ++ ['%']))) = n / 100 * hw)
        ∧ (jsParseFloat (String.mk (ds ++ ['e', 'm'])) = some n →
           parsePixelValue hw hh (some (String.mk (ds ++ ['e', 'm']))) = n * 16)
        ∧ (jsParseFloat (String.mk (ds ++ ['r', 'e', 'm'])) = some n →
           parsePixelValue hw hh (some (String.mk (ds ++ ['r', 'e', 'm']))) = n * 16)
        ∧ (jsParseFloat (String.mk (ds ++ ['p', 't'])) = some n →
           parsePixelValue hw hh (some (String.mk (ds ++ ['p', 't']))) = n * (1333/1000))
        ∧ (jsParseFloat (String.mk (ds ++ ['v', 'h'])) = some n →
           parsePixelValue hw hh (some (String.mk (ds ++ ['v', 'h']))) = n / 100 * hh)
        ∧ (jsParseFloat (String.mk (ds ++ ['v', 'w'])) = some n →
           parsePixelValue hw hh (some (String.mk (ds ++ ['v', 'w']))) = n / 100 * hw)
        ∧ (jsParseFloat (String.mk ds) = some n →
           parsePixelValue hw hh (some (String.mk ds)) = n)) := by
  refine ⟨rfl, by simp [parsePixelValue], ?_, ?_⟩
  · intro s h
    simp [parsePixelValue, h]
  · intro ds n hds hall
    have hne : ∀ (d : Char), (d.toNat < 48 ∨ 57 < d.toNat) → ∀ c ∈ ds, c ≠ d :=
      fun d hd c hc => isDigit_ne c d (hall c hc) hd
    have hmk : ∀ l : List Char, (String.mk l).toList = l := fun _ => rfl
    refine ⟨?_, ?_, ?_, ?_, ?_, ?_, ?_, ?_⟩ <;> intro hp
    · have hsne := mk_ne_empty (ds ++ ['p', 'x']) (by simp)
      norm_num +decide [parsePixelValue, if_neg hsne, hp, jsIncludes, hmk,
        show ("px" : String).toList = ['p', 'x'] from rfl,
        show ("%" : String).toList = ['%'] from rfl,
        show ("em" : String).toList = ['e', 'm'] from rfl,
        show ("rem" : String).toList = ['r', 'e', 'm'] from rfl,
        show ("pt" : String).toList = ['p', 't'] from rfl,
        show ("vh" : String).toList = ['v', 'h'] from rfl,
        show ("vw" : String).toList = ['v', 'w'] from rfl,
        containsSub_append_head_ne ds ['p', 'x'] 'p' ['x'] (hne 'p' (by decide)),
        containsSub_append_head_ne ds ['p', 'x'] '%' [] (hne '%' (by decide)),
        containsSub_append_head_ne ds ['p', 'x'] 'e' ['m'] (hne 'e' (by decide)),
        containsSub_append_head_ne ds ['p', 'x'] 'r' ['e', 'm'] (hne 'r' (by decide)),
        containsSub_append_head_ne ds ['p', 'x'] 'p' ['t'] (hne 'p' (by decide)),
        containsSub_append_head_ne ds ['p', 'x'] 'v' ['h'] (hne 'v' (by decide)),
        containsSub_append_head_ne ds ['p', 'x'] 'v' ['w'] (hne 'v' (by decide))]
    · have hsne := mk_ne_empty (ds ++ ['%']) (by simp)
      norm_num +decide [parsePixelValue, if_neg hsne, hp, jsIncludes, hmk,
        show ("px" : String).toList = ['p', 'x'] from rfl,
        show ("%" : String).toList = ['%'] from rfl,
        show ("em" : String).toList = ['e', 'm'] from rfl,
        show ("rem" : String).toList = ['r', 'e', 'm'] from rfl,
        show ("pt" : String).toList = ['p', 't'] from rfl,
        show ("vh" : String).toList = ['v', 'h'] from rfl,
        show ("vw" : String).toList = ['v', 'w'] from rfl,
        containsSub_append_head_ne ds ['%'] 'p' ['x'] (hne 'p' (by decide)),
        containsSub_append_head_ne ds ['%'] '%' [] (hne '%' (by decide)),
        containsSub_append_head_ne ds ['%'] 'e' ['m'] (hne 'e' (by decide)),
        containsSub_append_head_ne ds ['%'] 'r' ['e', 'm'] (hne 'r' (by decide)),
        containsSub_append_head_ne ds ['%'] 'p' ['t'] (hne 'p' (by decide)),
        containsSub_append_head_ne ds ['%'] 'v' ['h'] (hne 'v' (by decide)),
        containsSub_append_head_ne ds ['%'] 'v' ['w'] (hne 'v' (by decide))]
    · have hsne := mk_ne_empty (ds ++ ['e', 'm']) (by simp)
      norm_num +decide [parsePixelValue, if_neg hsne, hp, jsIncludes, hmk,
        show ("px" : String).toList = ['p', 'x'] from rfl,
        show ("%" : String).toList = ['%'] from rfl,
        show ("em" : String).toList = ['e', 'm'] from rfl,
        show ("rem" : String).toList = ['r', 'e', 'm'] from rfl,
        show ("pt" : String).toList = ['p', 't'] from rfl,
        show ("vh" : String).toList = ['v', 'h'] from rfl,
        show ("vw" : String).toList = ['v', 'w'] from rfl,
        containsSub_append_head_ne ds ['e', 'm'] 'p' ['x'] (hne 'p' (by decide)),
        containsSub_append_head_ne ds ['e', 'm'] '%' [] (hne '%' (by decide)),
        containsSub_append_head_ne ds ['e', 'm'] 'e' ['m'] (hne 'e' (by decide)),
        containsSub_append_head_ne ds ['e', 'm'] 'r' ['e', 'm'] (hne 'r' (by decide)),
        containsSub_append_head_ne ds ['e', 'm'] 'p' ['t'] (hne 'p' (by decide)),
        containsSub_append_head_ne ds ['e', 'm'] 'v' ['h'] (hne 'v' (by decide)),
        containsSub_append_head_ne ds ['e', 'm'] 'v' ['w'] (hne 'v' (by decide))]
    · have hsne := mk_ne_empty (ds ++ ['r', 'e', 'm']) (by simp)
      norm_num +decide [parsePixelValue, if_neg hsne, hp, jsIncludes, hmk,
        show ("px" : String).toList = ['p', 'x'] from rfl,
        show ("%" : String).toList = ['%'] from rfl,
        show ("em" : String).toList = ['e', 'm'] from rfl,
        show ("rem" : String).toList = ['r', 'e', 'm'] from rfl,
        show ("pt" : String).toList = ['p', 't'] from rfl,
        show ("vh" : String).toList = ['v', 'h'] from rfl,
        show ("vw" : String).toList = ['v', 'w'] from rfl,
        containsSub_append_head_ne ds ['r', 'e', 'm'] 'p' ['x'] (hne 'p' (by decide)),
        containsSub_append_head_ne ds ['r', 'e', 'm'] '%' [] (hne '%' (by decide)),
        containsSub_append_head_ne ds ['r', 'e', 'm'] 'e' ['m'] (hne 'e' (by decide)),
        containsSub_append_head_ne ds ['r', 'e', 'm'] 'r' ['e', 'm'] (hne 'r' (by decide)),
        containsSub_append_head_ne ds ['r', 'e', 'm'] 'p' ['t'] (hne 'p' (by decide)),
        containsSub_append_head_ne ds ['r', 'e', 'm'] 'v' ['h'] (hne 'v' (by decide)),
        containsSub_append_head_ne ds ['r', 'e', 'm'] 'v' ['w'] (hne 'v' (by decide))]
    · have hsne := mk_ne_empty (ds ++ ['p', 't']) (by simp)
      norm_num +decide [parsePixelValue, if_neg hsne, hp, jsIncludes, hmk,
        show ("px" : String).toList = ['p', 'x'] from rfl,
        show ("%" : String).toList = ['%'] from rfl,
        show ("em" : String).toList = ['e', 'm'] from rfl,
        show ("rem" : String).toList = ['r', 'e', 'm'] from rfl,
        show ("pt" : String).toList = ['p', 't'] from rfl,
        show ("vh" : String).toList = ['v', 'h'] from rfl,
        show ("vw" : String).toList = ['v', 'w'] from rfl,
        containsSub_append_head_ne ds ['p', 't'] 'p' ['x'] (hne 'p' (by decide)),
        containsSub_append_head_ne ds ['p', 't'] '%' [] (hne '%' (by decide)),
        containsSub_append_head_ne ds ['p', 't'] 'e' ['m'] (hne 'e' (by decide)),
        containsSub_append_head_ne ds ['p', 't'] 'r' ['e', 'm'] (hne 'r' (by decide)),
        containsSub_append_head_ne ds ['p', 't'] 'p' ['t'] (hne 'p' (by decide)),
        containsSub_append_head_ne ds ['p', 't'] 'v' ['h'] (hne 'v' (by decide)),
        containsSub_append_head_ne ds ['p', 't'] 'v' ['w'] (hne 'v' (by decide))]
    · have hsne := mk_ne_empty (ds ++ ['v', 'h']) (by simp)
      norm_num +decide [parsePixelValue, if_neg hsne, hp, jsIncludes, hmk,
        show ("px" : String).toList = ['p', 'x'] from rfl,
        show ("%" : String).toList = ['%'] from rfl,
        show ("em" : String).toList = ['e', 'm'] from rfl,
        show ("rem" : String).toList = ['r', 'e', 'm'] from rfl,
        show ("pt" : String).toList = ['p', 't'] from rfl,
        show ("vh" : String).toList = ['v', 'h'] from rfl,
        show ("vw" : String).toList = ['v', 'w'] from rfl,
        containsSub_append_head_ne ds ['v', 'h'] 'p' ['x'] (hne 'p' (by decide)),
        containsSub_append_head_ne ds ['v', 'h'] '%' [] (hne '%' (by decide)),
        containsSub_append_head_ne ds ['v', 'h'] 'e' ['m'] (hne 'e' (by decide)),
        containsSub_append_head_ne ds ['v', 'h'] 'r' ['e', 'm'] (hne 'r' (by decide)),
        containsSub_append_head_ne ds ['v', 'h'] 'p' ['t'] (hne 'p' (by decide)),
        containsSub_append_head_ne ds ['v', 'h'] 'v' ['h'] (hne 'v' (by decide)),
        containsSub_append_head_ne ds ['v', 'h'] 'v' ['w'] (hne 'v' (by decide))]
    · have hsne := mk_ne_empty (ds ++ ['v', 'w']) (by simp)
      norm_num +decide [parsePixelValue, if_neg hsne, hp, jsIncludes, hmk,
        show ("px" : String).toList = ['p', 'x'] from rfl,
        show ("%" : String).toList = ['%'] from rfl,
        show ("em" : String).toList = ['e', 'm'] from rfl,
        show ("rem" : String).toList = ['r', 'e', 'm'] from rfl,
        show ("pt" : String).toList = ['p', 't'] from rfl,
        show ("vh" : String).toList = ['v', 'h'] from rfl,
        show ("vw" : String).toList = ['v', 'w'] from rfl,
        containsSub_append_head_ne ds ['v', 'w'] 'p' ['x'] (hne 'p' (by decide)),
        containsSub_append_head_ne ds ['v', 'w'] '%' [] (hne '%' (by decide)),
        containsSub_append_head_ne ds ['v', 'w'] 'e' ['m'] (hne 'e' (by decide)),
        containsSub_append_head_ne ds ['v', 'w'] 'r' ['e', 'm'] (hne 'r' (by decide)),
        containsSub_append_head_ne ds ['v', 'w'] 'p' ['t'] (hne 'p' (by decide)),
        containsSub_append_head_ne ds ['v', 'w'] 'v' ['h'] (hne 'v' (by decide)),
        containsSub_append_head_ne ds ['v', 'w'] 'v' ['w'] (hne 'v' (by decide))]
    · have hsne := mk_ne_empty ds hds
      norm_num +decide [parsePixelValue, if_neg hsne, hp, jsIncludes, hmk,
        show ("px" : String).toList = ['p', 'x'] from rfl,
        show ("%" : String).toList = ['%'] from rfl,
        show ("em" : String).toList = ['e', 'm'] from rfl,
        show ("rem" : String).toList = ['r', 'e', 'm'] from rfl,
        show ("pt" : String).toList = ['p', 't'] from rfl,
        show ("vh" : String).toList = ['v', 'h'] from rfl,
        show ("vw" : String).toList = ['v', 'w'] from rfl,
        containsSub_of_forall_ne ds 'p' ['x'] (hne 'p' (by decide)),
        containsSub_of_forall_ne ds '%' [] (hne '%' (by decide)),
        containsSub_of_forall_ne ds 'e' ['m'] (hne 'e' (by decide)),
        containsSub_of_forall_ne ds 'r' ['e', 'm'] (hne 'r' (by decide)),
        containsSub_of_forall_ne ds 'p' ['t'] (hne 'p' (by decide)),
        containsSub_of_forall_ne ds 'v' ['h'] (hne 'v' (by decide)),
        containsSub_of_forall_ne ds 'v' ['w'] (hne 'v' (by decide))]

/-- C10 witness: the dispatch applied to the concrete value `42pt`. -/
theorem parsePixelValue_total_unit_dispatch_witness :
    parsePixelValue 1280 720 (some (String.mk (['4', '2'] ++ ['p', 't']))) = 42 * (1333/1000) :=
  ((parsePixelValue_total_unit_dispatch 1280 720).2.2.2 ['4', '2'] 42 (by decide)
      (by decide)).2.2.2.2.1
    (by
      have h : parseFloatParts ['4', '2', 'p', 't'] = some (false, ['4', '2'], []) := by
        decide
      norm_num [jsParseFloat, h, ratOfParts,
        show (String.mk (['4', '2'] ++ ['p', 't'])).toList = ['4', '2', 'p', 't'] from rfl,
        show jsDigits [Char.ofNat 52, Char.ofNat 50] = 42 from by decide,
        show jsDigits [] = 0 from rfl])
